import Mathlib

/-!
Shallow embedding of the network ingestion core of
`src/desktop-listener/main.py` (camera-streamer): the length-prefixed
framing protocol, the optional JSON handshake, the single-slot
latest-frame queue, the FPS/latency stats tracking, and the camera
registry `add` operation.  Byte streams are `List Nat` (each entry one
byte), wall-clock times are rationals.
-/

namespace CameraStreamer

/-- A received video frame: opaque payload bytes plus the capture timestamp
recorded when the complete payload arrived (`now = time.time()`, line 160). -/
structure Frame where
  data : List Nat
  timestamp : ℚ
deriving DecidableEq

/-- The `FrameStats` dataclass (main.py lines 54-59). -/
structure FrameStats where
  fps : ℚ
  latency_ms : ℚ
  last_updated : ℚ
  camera_id : String
deriving DecidableEq

/-- `VideoServer._recvall` (lines 192-204): read exactly `n` bytes from the
stream.  Returns `none` when the connection closes or the read times out
before `n` bytes arrive; in that case every byte the client had sent has been
consumed, so the remaining stream is empty. -/
def recvall (s : List Nat) (n : Nat) : Option (List Nat) × List Nat :=
  if n ≤ s.length then (some (s.take n), s.drop n) else (none, [])

/-- The 4-byte big-endian encoding of a 32-bit length, as produced by the
client for the `struct.unpack` of a `>I` header (lines 135 and 153). -/
def toBE32 (L : Nat) : List Nat :=
  [L / 2 ^ 24 % 256, L / 2 ^ 16 % 256, L / 2 ^ 8 % 256, L % 256]

/-- `struct.unpack` of format `>I` applied to a 4-byte buffer. -/
def fromBE32 (b : List Nat) : Nat :=
  match b with
  | [b0, b1, b2, b3] => ((b0 * 256 + b1) * 256 + b2) * 256 + b3
  | _ => 0

/-- The drain loop of `VideoServer._push_frame` (lines 179-183):
`while not empty: get_nowait()`, with `queue.Empty` absorbed. -/
def drainQueue : List Frame → List Frame
  | [] => []
  | _ :: rest => drainQueue rest

/-- `queue.Queue.put_nowait` together with the `except queue.Full: pass` of
`_push_frame` (lines 185-189): inserts when the queue is below `maxsize`,
otherwise the `queue.Full` exception is absorbed and the frame is dropped. -/
def putNowaitAbsorb (maxsize : Nat) (q : List Frame) (f : Frame) : List Frame :=
  if q.length < maxsize then q ++ [f] else q

/-- `VideoServer._push_frame` (lines 176-190): drain the queue, enqueue the
new frame, and set `stats.last_updated` to the frame timestamp. -/
def pushFrame (maxsize : Nat) (q : List Frame) (stats : FrameStats)
    (frameData : List Nat) (timestamp : ℚ) : List Frame × FrameStats :=
  let q1 := drainQueue q
  let q2 := putNowaitAbsorb maxsize q1 ⟨frameData, timestamp⟩
  (q2, { stats with last_updated := timestamp })

/-- `queue.Queue.get_nowait` as used by `ViewerApp._poll_frames` (line 618):
removes and returns the head frame, or reports empty (`queue.Empty`). -/
def getNowait : List Frame → Option (Frame × List Frame)
  | [] => none
  | f :: rest => some (f, rest)

/-- The per-frame stats block of `VideoServer._handle_client` (lines 163-168):
increment the frame counter; once at least one second has elapsed since the
window start, record `fps = counter / elapsed`, reset the counter to zero and
restart the window at `now`. -/
def statsWindowUpdate (now : ℚ) (stats : FrameStats) (frameCount : Nat)
    (windowStart : ℚ) : FrameStats × Nat × ℚ :=
  let fc := frameCount + 1
  let elapsed := now - windowStart
  if 1 ≤ elapsed then ({ stats with fps := (fc : ℚ) / elapsed }, 0, now)
  else (stats, fc, windowStart)

/-- The mutable state of the ingestion loop of `_handle_client`: the shared
frame queue, the shared `FrameStats`, and the local `frame_count` and
`window_start` variables (lines 127-128). -/
structure LoopState where
  queue : List Frame
  stats : FrameStats
  frameCount : Nat
  windowStart : ℚ
deriving DecidableEq

/-- The effect of one successfully received frame (lines 160-168): push the
payload with its capture time, then run the stats window update.  The app
constructs every frame queue with `queue.Queue(maxsize=1)` (line 276). -/
def frameStep (payload : List Nat) (now : ℚ) (st : LoopState) : LoopState :=
  let p := pushFrame 1 st.queue st.stats payload now
  let u := statsWindowUpdate now p.2 st.frameCount st.windowStart
  { queue := p.1, stats := u.1, frameCount := u.2.1, windowStart := u.2.2 }

/-- The frame ingestion loop of `_handle_client` (lines 148-172), with
`_should_run` held set for the whole session.  Each iteration reads a 4-byte
header via `_recvall` (which succeeds exactly when 4 bytes remain, consuming
them); a failed header read breaks the loop.  An out-of-range length
(`frame_length <= 0 or frame_length > 5*1024*1024`) hits `continue`, resuming
header parsing with no payload bytes consumed.  Otherwise the payload is read
via `_recvall` (failure breaks the loop) and `frameStep` is applied.
`clock i` is the wall time `time.time()` observed for the i-th successfully
received frame. -/
def frameLoop (clock : Nat → ℚ) (i : Nat) (st : LoopState) (s : List Nat) :
    LoopState :=
  if h4 : 4 ≤ s.length then
    let L := fromBE32 (s.take 4)
    let rest := s.drop 4
    if L = 0 ∨ 5 * 1024 * 1024 < L then
      frameLoop clock i st rest
    else if hL : L ≤ rest.length then
      frameLoop clock (i + 1) (frameStep (rest.take L) (clock i) st)
        (rest.drop L)
    else st
  else st
termination_by s.length
decreasing_by
  · simp only [List.length_drop]
    omega
  · simp only [List.length_drop]
    omega

/-- The optional handshake block of `_handle_client` (lines 130-146).  `jp`
models `json.loads` applied to the UTF-8 decoding of the metadata bytes,
returning the decoded object as key/value pairs; `jp mb = none` models every
failure path the code absorbs (invalid UTF-8, invalid JSON, or a JSON value
that is not an object, whose `.get` raises inside the outer bare `except`).
A 4-byte header is read; if its value `L1` satisfies `0 < L1 < 1024` the
metadata payload is read and decoded, and on success the camera identity
becomes `metadata.get('camera_id', self.camera_id)` and is also written to
`stats.camera_id`; on any failure the previous identity is retained. -/
def handshakeStep (jp : List Nat → Option (List (String × String)))
    (cameraId : String) (stats : FrameStats) (s : List Nat) :
    String × FrameStats × List Nat :=
  match recvall s 4 with
  | (none, rest) => (cameraId, stats, rest)
  | (some hdr, rest) =>
    let L1 := fromBE32 hdr
    if 0 < L1 ∧ L1 < 1024 then
      match recvall rest L1 with
      | (none, rest2) => (cameraId, stats, rest2)
      | (some mb, rest2) =>
        match jp mb with
        | none => (cameraId, stats, rest2)
        | some obj =>
          let cid := (obj.lookup "camera_id").getD cameraId
          (cid, { stats with camera_id := cid }, rest2)
    else (cameraId, stats, rest)

/-- `VideoServer._handle_client` (lines 120-174): the optional handshake
followed by the frame ingestion loop.  `windowStart` is the `time.time()`
taken at line 128 and `frame_count` starts at 0 (line 127); the first
component of the result is the final `self.camera_id`. -/
def handleClient (jp : List Nat → Option (List (String × String)))
    (clock : Nat → ℚ) (cameraId : String) (stats : FrameStats)
    (q : List Frame) (windowStart : ℚ) (s : List Nat) :
    String × LoopState :=
  let h := handshakeStep jp cameraId stats s
  (h.1, frameLoop clock 0
    { queue := q, stats := h.2.1, frameCount := 0, windowStart := windowStart }
    h.2.2)

/-- The latency computed by `ViewerApp._display_frame` at consumption time
(line 643): `max((now - timestamp) * 1000.0, 0.0)`. -/
def displayLatency (now timestamp : ℚ) : ℚ := max ((now - timestamp) * 1000) 0

/-- The stats mutation of `ViewerApp._display_frame` (lines 641-643): only
`latency_ms` is written, at consumption time. -/
def displayFrameStats (st : FrameStats) (now timestamp : ℚ) : FrameStats :=
  { st with latency_ms := displayLatency now timestamp }

/-- Folding the per-push stats update of lines 163-168 over `n` successive
successful frame pushes, the i-th push observed at wall time `t i`, starting
from stats `st`, counter `fc` and window start `ws`. -/
def statsRun (t : Nat → ℚ) (st : FrameStats) (fc : Nat) (ws : ℚ) :
    Nat → FrameStats × Nat × ℚ
  | 0 => (st, fc, ws)
  | n + 1 =>
    let r := statsRun t st fc ws n
    statsWindowUpdate (t n) r.1 r.2.1 r.2.2

/-- One registry entry of `ViewerApp.cameras` as created by `_add_camera`
(lines 274-286): host, port, a fresh `queue.Queue(maxsize=1)` and a fresh
`FrameStats(camera_id=name)`. -/
structure CameraEntry where
  host : String
  port : Int
  queue : List Frame
  statsCameraId : String
deriving DecidableEq

/-- `ViewerApp._add_camera` (lines 274-286): the unconditional dictionary
assignment `self.cameras[camera_id] = dict(...)`, which inserts or replaces
the binding for `name`. -/
def addCameraEntry (cameras : List (String × CameraEntry)) (name host : String)
    (port : Int) : List (String × CameraEntry) :=
  (name, { host := host, port := port, queue := [], statsCameraId := name }) ::
    cameras.filter (fun e => e.1 ≠ name)

/-- The distinct validation failures of the `add_camera` closure of
`_show_add_camera_dialog` (lines 826-850), one per error message written to
the dialog's error label. -/
inductive AddError
  | emptyName
  | emptyHost
  | portOutOfRange
  | duplicateName
deriving DecidableEq

/-- The `add_camera` closure of `_show_add_camera_dialog` (lines 826-850),
with the entry texts already stripped and the port already parsed to an
integer.  Checks run in source order: empty name, empty host, port out of
`[1024, 65535]`, then `name in self.cameras`; only when all pass is
`_add_camera` called, inserting the new entry. -/
def add_camera (cameras : List (String × CameraEntry)) (name host : String)
    (port : Int) : Option AddError × List (String × CameraEntry) :=
  if name = "" then (some AddError.emptyName, cameras)
  else if host = "" then (some AddError.emptyHost, cameras)
  else if port < 1024 ∨ 65535 < port then (some AddError.portOutOfRange, cameras)
  else if (cameras.lookup name).isSome then (some AddError.duplicateName, cameras)
  else (none, addCameraEntry cameras name host port)

/-- Whitespace skipping for the `jsonLoads` model below. -/
def skipWs : List Nat → List Nat
  | [] => []
  | b :: rest =>
    if b = 32 ∨ b = 9 ∨ b = 10 ∨ b = 13 then skipWs rest else b :: rest

/-- Characters of a JSON string literal up to the closing quote, for the
`jsonLoads` model below: printable ASCII without escapes. -/
def jstrChars : List Nat → Option (List Char × List Nat)
  | [] => none
  | c :: rest =>
    if c = 34 then some ([], rest)
    else if 32 ≤ c ∧ c ≤ 126 ∧ c ≠ 92 then
      match jstrChars rest with
      | some (cs, r) => some (Char.ofNat c :: cs, r)
      | none => none
    else none

/-- A JSON string literal, for the `jsonLoads` model below. -/
def parseJString (s : List Nat) : Option (String × List Nat) :=
  match s with
  | 34 :: rest =>
    match jstrChars rest with
    | some (cs, r) => some (String.mk cs, r)
    | none => none
  | _ => none

/-- The members of a JSON object including its closing brace, for the
`jsonLoads` model below. -/
def jsonMembers : Nat → List Nat → Option (List (String × String) × List Nat)
  | 0, _ => none
  | fuel + 1, s =>
    match parseJString (skipWs s) with
    | none => none
    | some (k, r1) =>
      match skipWs r1 with
      | 58 :: r2 =>
        match parseJString (skipWs r2) with
        | none => none
        | some (v, r3) =>
          match skipWs r3 with
          | 44 :: r4 =>
            match jsonMembers fuel r4 with
            | some (ms, r5) => some ((k, v) :: ms, r5)
            | none => none
          | 125 :: r4 => some ([(k, v)], r4)
          | _ => none
      | _ => none

/-- Models `json.loads` applied to the UTF-8 decoding of the payload bytes,
restricted to the shapes the verified scenarios exercise: a flat JSON object
with ASCII string keys and string values and no escape sequences.  Any other
payload — in particular one that does not start with an opening brace, such
as the bytes of "AAAAA" — yields `none`, matching the `json.JSONDecodeError`
and `UnicodeDecodeError` paths the code absorbs. -/
def jsonLoads (s : List Nat) : Option (List (String × String)) :=
  match skipWs s with
  | 123 :: r =>
    match skipWs r with
    | 125 :: r2 => if skipWs r2 = [] then some [] else none
    | _ =>
      match jsonMembers (s.length + 1) r with
      | some (ms, r2) => if skipWs r2 = [] then some ms else none
      | none => none
  | _ => none

/-- Default stats, as for an endpoint whose session starts at time 0:
`FrameStats(camera_id="default")` with zeroed telemetry. -/
def stats0 : FrameStats :=
  { fps := 0, latency_ms := 0, last_updated := 0, camera_id := "default" }

/-- The bytes of the handshake payload consisting of an opening brace,
`"camera_id":"Cam42"`, and a closing brace (21 ASCII bytes). -/
def cam42Payload : List Nat :=
  [123, 34, 99, 97, 109, 101, 114, 97, 95, 105, 100, 34, 58,
   34, 67, 97, 109, 52, 50, 34, 125]

/-- The two bytes of the empty JSON object: an opening brace directly
followed by a closing brace — valid JSON with no `camera_id` field. -/
def emptyObjPayload : List Nat := [123, 125]

/-- A registry entry as `_add_camera` creates for the initial
`"Camera 1"` endpoint (line 256). -/
def cam1Entry : CameraEntry :=
  { host := "0.0.0.0", port := 5000, queue := [], statsCameraId := "Camera 1" }

/-- The drain loop of `_push_frame` always leaves the queue empty. -/
theorem drainQueue_eq_nil (q : List Frame) : drainQueue q = [] := by
  induction q with
  | nil => rfl
  | cons _ _ ih => exact ih

/-- `struct.unpack` of `>I` inverts the client's big-endian encoding for any
value that fits in 32 bits. -/
theorem fromBE32_toBE32 (L : Nat) (h : L < 2 ^ 32) :
    fromBE32 (toBE32 L) = L := by
  simp only [toBE32, fromBE32]
  omega

/-- One iteration of the ingestion loop on a well-formed in-range frame:
the header and payload are consumed and `frameStep` is applied. -/
theorem frameLoop_valid_frame (clock : Nat → ℚ) (i : Nat) (st : LoopState)
    (L : Nat) (payload rest : List Nat)
    (h0 : 0 < L) (h5 : L ≤ 5 * 1024 * 1024) (hlen : payload.length = L) :
    frameLoop clock i st (toBE32 L ++ (payload ++ rest)) =
      frameLoop clock (i + 1) (frameStep payload (clock i) st) rest := by
  have hL32 : L < 2 ^ 32 := by omega
  have hlen4 : (toBE32 L).length = 4 := rfl
  have h4 : 4 ≤ (toBE32 L ++ (payload ++ rest)).length := by
    rw [List.length_append, hlen4]
    omega
  have htake : (toBE32 L ++ (payload ++ rest)).take 4 = toBE32 L := by
    rw [← hlen4]
    exact List.take_left _ _
  have hdrop : (toBE32 L ++ (payload ++ rest)).drop 4 = payload ++ rest := by
    rw [← hlen4]
    exact List.drop_left _ _
  have hne : ¬(L = 0 ∨ 5 * 1024 * 1024 < L) := by omega
  have htake2 : (payload ++ rest).take L = payload := by
    rw [← hlen]
    exact List.take_left _ _
  have hdrop2 : (payload ++ rest).drop L = rest := by
    rw [← hlen]
    exact List.drop_left _ _
  have hLle : L ≤ (payload ++ rest).length := by
    rw [List.length_append, hlen]
    omega
  rw [frameLoop]
  rw [dif_pos h4]
  simp only [htake, hdrop, fromBE32_toBE32 L hL32, if_neg hne, dif_pos hLle,
    htake2, hdrop2]

/-- As long as each push happens less than one second after the window
start, the stats fold only accumulates the counter. -/
theorem statsRun_no_boundary (t : Nat → ℚ) (st : FrameStats) (ws : ℚ)
    (k : Nat) (h : ∀ i, i < k → t i - ws < 1) :
    statsRun t st 0 ws k = (st, k, ws) := by
  induction k with
  | zero => rfl
  | succ n ih =>
    have ihn := ih (fun i hi => h i (Nat.lt_succ_of_lt hi))
    have hb : ¬ (1 : ℚ) ≤ t n - ws := not_le.mpr (h n (Nat.lt_succ_self n))
    simp only [statsRun, ihn, statsWindowUpdate, if_neg hb]

/-- C1: the claim states that on an out-of-range frame length the ingestion
loop either drains the declared payload from the stream or terminates the
session, and never resumes header parsing without consuming the payload.
The code instead hits `continue` (line 155), consuming only the 4 header
bytes: after a header declaring 5242881 bytes, the loop immediately
reinterprets the next 9 stream bytes — which the client declared as payload —
as a fresh header-plus-frame, delivering the bogus frame "AAAAA".  This is
the desynchronization the specification flags as a defect. -/
theorem frameLoop_skips_oversize_header_without_drain :
    (frameLoop (fun _ => 0) 0
      { queue := [], stats := stats0, frameCount := 0, windowStart := 0 }
      (toBE32 5242881 ++ (toBE32 5 ++ [65, 65, 65, 65, 65]))).queue =
      [⟨[65, 65, 65, 65, 65], 0⟩] := by
  simp [frameLoop, stats0, frameStep, pushFrame, drainQueue, putNowaitAbsorb,
    statsWindowUpdate, toBE32, fromBE32]

/-- C2, counterexample: a client that sends no handshake and immediately
sends header `0x00000005` and payload "AAAAA" does NOT get that frame
delivered — the 9 bytes are consumed by the optional handshake attempt
(5 lies inside the handshake range), the JSON parse of "AAAAA" fails, and
the frame loop then finds the stream exhausted; a subsequent poll of the
frame queue reports empty rather than returning "AAAAA". -/
theorem first_frame_consumed_by_handshake_attempt :
    getNowait (handleClient jsonLoads (fun _ => 0) "default" stats0 [] 0
      (toBE32 5 ++ [65, 65, 65, 65, 65])).2.queue = none := by
  simp [handleClient, handshakeStep, recvall, frameLoop, toBE32, fromBE32,
    jsonLoads, skipWs, getNowait]

/-- C2, amended: the first length-prefixed message `[5]"AAAAA"` of a client
that sends no handshake is consumed as a failed handshake attempt; the
failure is not an error — the camera identity stays "default" and frame
parsing proceeds — and a second frame `[5]"BBBBB"` is then delivered to the
frame buffer with its capture timestamp. -/
theorem handshake_eats_first_message_later_frames_flow :
    (handleClient jsonLoads (fun _ => 0) "default" stats0 [] 0
      (toBE32 5 ++ ([65, 65, 65, 65, 65] ++
        (toBE32 5 ++ [66, 66, 66, 66, 66])))).1 = "default" ∧
    (handleClient jsonLoads (fun _ => 0) "default" stats0 [] 0
      (toBE32 5 ++ ([65, 65, 65, 65, 65] ++
        (toBE32 5 ++ [66, 66, 66, 66, 66])))).2.stats.camera_id = "default" ∧
    (handleClient jsonLoads (fun _ => 0) "default" stats0 [] 0
      (toBE32 5 ++ ([65, 65, 65, 65, 65] ++
        (toBE32 5 ++ [66, 66, 66, 66, 66])))).2.queue =
      [⟨[66, 66, 66, 66, 66], 0⟩] := by
  refine ⟨?_, ?_, ?_⟩
  · simp [handleClient, handshakeStep, recvall, toBE32, fromBE32, jsonLoads,
      skipWs]
  · simp [handleClient, handshakeStep, recvall, frameLoop, toBE32, fromBE32,
      jsonLoads, skipWs, frameStep, pushFrame, drainQueue, putNowaitAbsorb,
      statsWindowUpdate, stats0, if_neg (by norm_num : ¬ (1 : ℚ) ≤ 0)]
  · simp [handleClient, handshakeStep, recvall, frameLoop, toBE32, fromBE32,
      jsonLoads, skipWs, frameStep, pushFrame, drainQueue, putNowaitAbsorb,
      statsWindowUpdate, stats0, if_neg (by norm_num : ¬ (1 : ℚ) ≤ 0)]

/-- C3: for every starting state of the single-slot buffer and any frames A
and B, push(A) leaves exactly [A]; push(A) then push(B) leaves exactly [B],
so a pop returns B with the buffer left empty, and a second immediate pop
reports empty.  Both operations are total functions of the embedded model:
the drain loop absorbs `queue.Empty` and the insert absorbs `queue.Full`,
so a push never blocks and never raises a capacity error. -/
theorem latest_frame_wins (q : List Frame) (st : FrameStats) (A B : Frame) :
    (pushFrame 1 q st A.data A.timestamp).1 = [A] ∧
    (pushFrame 1 (pushFrame 1 q st A.data A.timestamp).1
      (pushFrame 1 q st A.data A.timestamp).2 B.data B.timestamp).1 = [B] ∧
    getNowait (pushFrame 1 (pushFrame 1 q st A.data A.timestamp).1
      (pushFrame 1 q st A.data A.timestamp).2 B.data B.timestamp).1
      = some (B, []) ∧
    getNowait ([] : List Frame) = none := by
  simp [pushFrame, drainQueue_eq_nil, putNowaitAbsorb, getNowait]

/-- C4: for every frame length L with 0 < L ≤ 5242880, a stream consisting
of the 4-byte big-endian encoding of L followed by L payload bytes is parsed
by the framing loop into a frame holding exactly those payload bytes,
unchanged, stamped with the wall time of the read; in particular the length
check accepts the boundary value 5242880 and rejects nothing in range. -/
theorem framing_roundtrip (clock : Nat → ℚ) (st : LoopState) (L : Nat)
    (payload : List Nat) (h0 : 0 < L) (h5 : L ≤ 5242880)
    (hlen : payload.length = L) :
    (frameLoop clock 0 st (toBE32 L ++ payload)).queue =
      [⟨payload, clock 0⟩] := by
  have h5' : L ≤ 5 * 1024 * 1024 := by omega
  have hstep := frameLoop_valid_frame clock 0 st L payload [] h0 h5' hlen
  rw [List.append_nil] at hstep
  rw [hstep]
  rw [frameLoop]
  simp [frameStep, pushFrame, drainQueue_eq_nil, putNowaitAbsorb]

/-- Witness for C4 at L = 5 and payload "AAAAA". -/
theorem framing_roundtrip_witness :
    (frameLoop (fun _ => 0) 0
      { queue := [], stats := stats0, frameCount := 0, windowStart := 0 }
      (toBE32 5 ++ [65, 65, 65, 65, 65])).queue =
      [⟨[65, 65, 65, 65, 65], 0⟩] :=
  framing_roundtrip (fun _ => 0)
    { queue := [], stats := stats0, frameCount := 0, windowStart := 0 }
    5 [65, 65, 65, 65, 65] (by decide) (by decide) (by decide)

/-- C5: each successful push increments the counter, and the push that first
sees `now - window_start ≥ 1` records `fps = counter / (now - window_start)`,
resets the counter to 0 and restarts the window at `now`; hence N pushes,
the first N-1 of them within one second of the window start and the last one
exactly T ≥ 1 seconds after it, record fps = N / T at that boundary. -/
theorem fps_first_window_boundary (t : Nat → ℚ) (st : FrameStats) (ws T : ℚ)
    (N : Nat) (hN : 0 < N)
    (hmid : ∀ i, i + 1 < N → t i - ws < 1)
    (hT : t (N - 1) - ws = T) (h1 : 1 ≤ T) :
    (statsRun t st 0 ws N).1.fps = (N : ℚ) / T ∧
    (statsRun t st 0 ws N).2.1 = 0 ∧
    (statsRun t st 0 ws N).2.2 = t (N - 1) := by
  obtain ⟨M, rfl⟩ : ∃ M, N = M + 1 := ⟨N - 1, (Nat.succ_pred_eq_of_pos hN).symm⟩
  have hrun : statsRun t st 0 ws M = (st, M, ws) :=
    statsRun_no_boundary t st ws M (fun i hi => hmid i (by omega))
  have hM : M + 1 - 1 = M := by omega
  rw [hM] at hT
  simp [statsRun, hrun, statsWindowUpdate, hM, hT, if_pos h1]

/-- Witness for C5: two pushes at times 0 and 1 from window start 0 record
fps = 2. -/
theorem fps_first_window_boundary_witness :
    (statsRun (fun i => (i : ℚ)) stats0 0 0 2).1.fps = 2 := by
  have h := fps_first_window_boundary (fun i => (i : ℚ)) stats0 0 1 2
    (by norm_num)
    (by
      intro i hi
      have h0 : i = 0 := by omega
      subst h0
      norm_num)
    (by norm_num) (by norm_num)
  rw [h.1]
  norm_num

/-- C6, counterexample: the frame-push operation does not record latency at
push time.  Pushing a frame with capture timestamp 5 at time 5 onto stats
whose latency reads 7 leaves the latency at 7, not at the claimed clamped
value `max((now - capture_timestamp) * 1000, 0) = 0`. -/
theorem push_does_not_record_latency :
    (pushFrame 1 [] { stats0 with latency_ms := 7 } [65] 5).2.latency_ms ≠
      displayLatency 5 5 := by
  norm_num [pushFrame, stats0, displayLatency]

/-- C6, amended: the push operation leaves `latency_ms` unchanged; latency
is recorded only at consumption time by the display layer, as
`(now - frame.capture_timestamp)` in milliseconds clamped to a minimum of 0,
and every value so recorded is ≥ 0. -/
theorem latency_recorded_at_display_nonneg (maxsize : Nat) (q : List Frame)
    (st : FrameStats) (fd : List Nat) (ts now cts : ℚ) :
    (pushFrame maxsize q st fd ts).2.latency_ms = st.latency_ms ∧
    (displayFrameStats st now cts).latency_ms = displayLatency now cts ∧
    0 ≤ displayLatency now cts := by
  refine ⟨by simp [pushFrame], rfl, le_max_right _ _⟩

/-- C7: for every registry state, adding a camera under a name that already
exists leaves the registry — and hence the existing endpoint's host/port
binding — unchanged, and, whenever the remaining inputs pass their checks,
fails precisely with the duplicate-name error; it never silently replaces
the existing endpoint. -/
theorem add_camera_duplicate_rejected (cameras : List (String × CameraEntry))
    (name host : String) (port : Int)
    (hmem : (cameras.lookup name).isSome = true) :
    (add_camera cameras name host port).2 = cameras ∧
    (name ≠ "" → host ≠ "" → 1024 ≤ port → port ≤ 65535 →
      add_camera cameras name host port =
        (some AddError.duplicateName, cameras)) := by
  constructor
  · simp only [add_camera]
    split
    · rfl
    · split
      · rfl
      · split
        · rfl
        · rfl
  · intro h1 h2 h3 h4
    have hp : ¬(port < 1024 ∨ 65535 < port) := by omega
    simp only [add_camera, if_neg h1, if_neg h2, if_neg hp, if_pos hmem]

/-- Witness for C7: re-adding "Camera 1" to a registry that already holds it
is rejected as a duplicate and leaves the registry unchanged. -/
theorem add_camera_duplicate_rejected_witness :
    add_camera [("Camera 1", cam1Entry)] "Camera 1" "0.0.0.0" 5001 =
      (some AddError.duplicateName, [("Camera 1", cam1Entry)]) :=
  (add_camera_duplicate_rejected [("Camera 1", cam1Entry)] "Camera 1"
    "0.0.0.0" 5001 (by decide)).2 (by decide) (by decide) (by decide)
    (by decide)

/-- C8: for a handshake whose declared length is in range (0, 1024): when the
payload decodes to a JSON object carrying a `camera_id` field, both the
endpoint's camera identity and the stats record's identity become that value;
when the payload decodes to a JSON object without a `camera_id` field, the
`metadata.get` default (line 141) retains the previous identity — the stats
identity field is written with that same retained value — and the session
proceeds to frame parsing; and when the decode fails outright, the previous
identity is retained untouched and the session likewise proceeds to frame
parsing on the remaining stream rather than terminating. -/
theorem handshake_updates_or_retains_identity
    (jp : List Nat → Option (List (String × String))) (clock : Nat → ℚ)
    (cameraId : String) (st : FrameStats) (q : List Frame) (ws : ℚ)
    (payload rest : List Nat)
    (h0 : 0 < payload.length) (h1 : payload.length < 1024) :
    (∀ obj v, jp payload = some obj → obj.lookup "camera_id" = some v →
      handshakeStep jp cameraId st (toBE32 payload.length ++ (payload ++ rest)) =
        (v, { st with camera_id := v }, rest)) ∧
    (∀ obj, jp payload = some obj → obj.lookup "camera_id" = none →
      handshakeStep jp cameraId st (toBE32 payload.length ++ (payload ++ rest)) =
        (cameraId, { st with camera_id := cameraId }, rest) ∧
      (handleClient jp clock cameraId st q ws
        (toBE32 payload.length ++ (payload ++ rest))).2 =
        frameLoop clock 0
          { queue := q, stats := { st with camera_id := cameraId },
            frameCount := 0, windowStart := ws }
          rest) ∧
    (jp payload = none →
      handshakeStep jp cameraId st (toBE32 payload.length ++ (payload ++ rest)) =
        (cameraId, st, rest) ∧
      (handleClient jp clock cameraId st q ws
        (toBE32 payload.length ++ (payload ++ rest))).2 =
        frameLoop clock 0
          { queue := q, stats := st, frameCount := 0, windowStart := ws }
          rest) := by
  have hlen4 : (toBE32 payload.length).length = 4 := rfl
  have h4 : 4 ≤ (toBE32 payload.length ++ (payload ++ rest)).length := by
    rw [List.length_append, hlen4]
    omega
  have htake : (toBE32 payload.length ++ (payload ++ rest)).take 4 =
      toBE32 payload.length := by
    rw [← hlen4]
    exact List.take_left _ _
  have hdrop : (toBE32 payload.length ++ (payload ++ rest)).drop 4 =
      payload ++ rest := by
    rw [← hlen4]
    exact List.drop_left _ _
  have hr32 : fromBE32 (toBE32 payload.length) = payload.length :=
    fromBE32_toBE32 payload.length (by omega)
  have hple : payload.length ≤ (payload ++ rest).length := by
    rw [List.length_append]
    omega
  have htakep : (payload ++ rest).take payload.length = payload :=
    List.take_left _ _
  have hdropp : (payload ++ rest).drop payload.length = rest :=
    List.drop_left _ _
  have hcore : ∀ r, jp payload = r →
      handshakeStep jp cameraId st
        (toBE32 payload.length ++ (payload ++ rest)) =
        (match r with
         | none => (cameraId, st, rest)
         | some obj =>
           ((obj.lookup "camera_id").getD cameraId,
            { st with camera_id := (obj.lookup "camera_id").getD cameraId },
            rest)) := by
    intro r hr
    simp only [handshakeStep, recvall, if_pos h4, htake, hdrop, hr32,
      if_pos (And.intro h0 h1), if_pos hple, htakep, hdropp, hr]
  refine ⟨?_, ?_, ?_⟩
  · intro obj v hobj hv
    rw [hcore (some obj) hobj]
    simp [hv]
  · intro obj hobj hv
    have h2 := hcore (some obj) hobj
    simp only [hv, Option.getD_none] at h2
    refine ⟨h2, ?_⟩
    simp only [handleClient, h2]
  · intro hnone
    have h2 := hcore none hnone
    refine ⟨h2, ?_⟩
    simp only [handleClient, h2]

/-- Witness for C8: the payload bytes of a JSON object binding "camera_id"
to "Cam42" update the identity and the stats identity to "Cam42", while the
payload bytes of the empty JSON object — valid JSON with the `camera_id`
field missing — retain the previous identity "default". -/
theorem handshake_updates_witness :
    (handshakeStep jsonLoads "default" stats0
      (toBE32 cam42Payload.length ++ (cam42Payload ++ [])) =
      ("Cam42", { stats0 with camera_id := "Cam42" }, [])) ∧
    (handshakeStep jsonLoads "default" stats0
      (toBE32 emptyObjPayload.length ++ (emptyObjPayload ++ [])) =
      ("default", { stats0 with camera_id := "default" }, [])) :=
  ⟨(handshake_updates_or_retains_identity jsonLoads (fun _ => 0) "default"
      stats0 [] 0 cam42Payload [] (by decide) (by decide)).1
      [("camera_id", "Cam42")] "Cam42" (by decide) (by decide),
   ((handshake_updates_or_retains_identity jsonLoads (fun _ => 0) "default"
      stats0 [] 0 emptyObjPayload [] (by decide) (by decide)).2.1
      [] (by decide) (by decide)).1⟩

/-- C10: the frame-push operation is a total function (the embedded drain
absorbs `queue.Empty` and the insert absorbs `queue.Full`); it always sets
`last_updated` to the given timestamp — including with `maxsize = 0`, where
the new frame cannot be enqueued — and it changes no other stats field. -/
theorem push_frame_sets_last_updated_only (maxsize : Nat) (q : List Frame)
    (st : FrameStats) (fd : List Nat) (ts : ℚ) :
    (pushFrame maxsize q st fd ts).2.last_updated = ts ∧
    (pushFrame maxsize q st fd ts).2.fps = st.fps ∧
    (pushFrame maxsize q st fd ts).2.latency_ms = st.latency_ms ∧
    (pushFrame maxsize q st fd ts).2.camera_id = st.camera_id := by
  simp [pushFrame]

end CameraStreamer

